import Mathlib

/-!
Verification of `src/Telegram/SourceFiles/media/player/media_player_panel.cpp`
(the media-player playlist/cover popup `Media::Player::Panel`).

The C++ code is shallowly embedded: geometry helpers become pure functions on
`Int`, the widget's mutable fields become an explicit state record, and each
member function becomes a state-transition function.  Style constants
(`st::...`) live in external style files, so they are carried as a record of
integer parameters.
-/

/-- Style constants used by the panel (`st::` values from the style files,
which are data external to this translation unit). -/
structure Style where
  mediaPlayerPanelWidth : Int
  mediaPlayerListHeightMax : Int
  mediaPlayerListMarginBottom : Int
  mediaPlayerPanelMarginLeft : Int
  mediaPlayerPanelMarginBottom : Int
  infoMediaMarginTop : Int
  infoMediaMarginBottom : Int
  songPaddingTop : Int
  songPaddingBottom : Int
  songThumbSize : Int
  scrollShadowExtendBottom : Int
  deriving Repr, DecidableEq

/-- Source `Panel::Layout` (from the header): the panel is constructed either in the
full layout (with cover and scroll shadow) or in another layout. -/
inductive Layout where
  | Full : Layout
  | Other : Layout
  deriving Repr, DecidableEq

/-- Source `Panel::contentLeft`: `st::mediaPlayerPanelMarginLeft`. -/
def contentLeft (st : Style) : Int :=
  st.mediaPlayerPanelMarginLeft

/-- Source `Panel::contentTop`: `0` for `Layout::Full`, else
`st::mediaPlayerPanelMarginLeft`. -/
def contentTop (st : Style) (layout : Layout) : Int :=
  if layout = Layout.Full then 0 else st.mediaPlayerPanelMarginLeft

/-- Source `Panel::contentRight`: `0` for `Layout::Full`, else
`st::mediaPlayerPanelMarginLeft`. -/
def contentRight (st : Style) (layout : Layout) : Int :=
  if layout = Layout.Full then 0 else st.mediaPlayerPanelMarginLeft

/-- Source `Panel::contentBottom`: `st::mediaPlayerPanelMarginBottom`. -/
def contentBottom (st : Style) : Int :=
  st.mediaPlayerPanelMarginBottom

/-- Source `Panel::scrollMarginBottom`: the body is `return 0;` (the style value is
commented out in the source). -/
def scrollMarginBottom : Int := 0

/-- Source `Panel::emptyInnerHeight`: height of a single empty list entry,
`st::infoMediaMargin.top() + st::overviewFileLayout.songPadding.top()
 + st::overviewFileLayout.songThumbSize
 + st::overviewFileLayout.songPadding.bottom() + st::infoMediaMargin.bottom()`. -/
def emptyInnerHeight (st : Style) : Int :=
  st.infoMediaMarginTop + st.songPaddingTop + st.songThumbSize
    + st.songPaddingBottom + st.infoMediaMarginBottom

/-! ## Qt geometry primitives

`QPoint`, `QSize`, `QMargins` and `QRect` as used by `Panel::overlaps`.
`QRect` stores its corners `x1 ≤ x2`-style exactly as Qt does:
`x2 = x + width - 1`, `y2 = y + height - 1`. -/

structure QPoint where
  x : Int
  y : Int
  deriving Repr, DecidableEq

structure QSize where
  w : Int
  h : Int
  deriving Repr, DecidableEq

structure QMargins where
  left : Int
  top : Int
  right : Int
  bottom : Int
  deriving Repr, DecidableEq

/-- Source `QRect` in Qt's corner representation: `x1,y1` top-left corner and
`x2 = x1 + w - 1`, `y2 = y1 + h - 1`. -/
structure QRect where
  x1 : Int
  y1 : Int
  x2 : Int
  y2 : Int
  deriving Repr, DecidableEq

/-- Build a `QRect` from position and size (`QRect(QPoint, QSize)`). -/
def QRect.mk' (p : QPoint) (s : QSize) : QRect :=
  ⟨p.x, p.y, p.x + s.w - 1, p.y + s.h - 1⟩

/-- Source `QRect::isNull`: both width and height are zero. -/
def QRect.isNull (r : QRect) : Bool :=
  r.x2 = r.x1 - 1 && r.y2 = r.y1 - 1

/-- Source `QRect::marginsRemoved`: shrink the rectangle by the margins. -/
def QRect.marginsRemoved (r : QRect) (m : QMargins) : QRect :=
  ⟨r.x1 + m.left, r.y1 + m.top, r.x2 - m.right, r.y2 - m.bottom⟩

/-- Source `QRect::contains(const QRect &, bool proper = false)` (Qt semantics,
non-proper): null rectangles contain and are contained by nothing; otherwise
each rectangle's corners are normalized — when the stored width (resp.
height) is negative, the left (resp. top) edge is taken from `x2` (resp.
`y2`) and the right (resp. bottom) edge from `x1` (resp. `y1`) — and the
normalized edges are compared. -/
def QRect.contains (r inner : QRect) : Bool :=
  if r.isNull || inner.isNull then false
  else
    let l1 := if r.x2 - r.x1 + 1 < 0 then r.x2 else r.x1
    let r1 := if r.x2 - r.x1 + 1 < 0 then r.x1 else r.x2
    let l2 := if inner.x2 - inner.x1 + 1 < 0 then inner.x2 else inner.x1
    let r2 := if inner.x2 - inner.x1 + 1 < 0 then inner.x1 else inner.x2
    let t1 := if r.y2 - r.y1 + 1 < 0 then r.y2 else r.y1
    let b1 := if r.y2 - r.y1 + 1 < 0 then r.y1 else r.y2
    let t2 := if inner.y2 - inner.y1 + 1 < 0 then inner.y2 else inner.y1
    let b2 := if inner.y2 - inner.y1 + 1 < 0 then inner.y1 else inner.y2
    !(l2 < l1) && !(r2 > r1) && !(t2 < t1) && !(b2 > b1)

/-! ## `Panel::overlaps` -/

/-- The widget-level inputs of `Panel::overlaps`: whether the widget is
hidden, whether the appearance animation is running, the right-to-left flag,
the widget's size (its `rect()` is `(0, 0, width, height)`), and the global
position of the widget's origin (so `mapFromGlobal p = p - origin`). -/
structure OverlapsCtx where
  hidden : Bool
  animating : Bool
  rtl : Bool
  width : Int
  height : Int
  originX : Int
  originY : Int
  deriving Repr, DecidableEq

/-- Source `QWidget::rect()`: `(0, 0, width, height)`. -/
def OverlapsCtx.rect (c : OverlapsCtx) : QRect :=
  ⟨0, 0, c.width - 1, c.height - 1⟩

/-- Source `QWidget::mapFromGlobal`: translate a global point into widget
coordinates. -/
def OverlapsCtx.mapFromGlobal (c : OverlapsCtx) (p : QPoint) : QPoint :=
  ⟨p.x - c.originX, p.y - c.originY⟩

/-- Source `QRect::size`. -/
def QRect.size (r : QRect) : QSize :=
  ⟨r.x2 - r.x1 + 1, r.y2 - r.y1 + 1⟩

/-- Source `QRect::topLeft`. -/
def QRect.topLeft (r : QRect) : QPoint :=
  ⟨r.x1, r.y1⟩

/-- Source `Panel::overlaps(const QRect &globalRect)`:
returns `false` when hidden or animating; otherwise removes the content
margins (left/right swapped under RTL) from `rect()` and tests containment
of the global rectangle mapped into widget coordinates. -/
def overlaps (st : Style) (layout : Layout) (c : OverlapsCtx)
    (globalRect : QRect) : Bool :=
  if c.hidden || c.animating then false
  else
    let marginLeft := if c.rtl then contentRight st layout else contentLeft st
    let marginRight := if c.rtl then contentLeft st else contentRight st layout
    (c.rect.marginsRemoved
        ⟨marginLeft, contentTop st layout, marginRight, contentBottom st⟩).contains
      (QRect.mk' (c.mapFromGlobal globalRect.topLeft) globalRect.size)

/-! ## `Panel::updateSize` -/

/-- Inputs of `Panel::updateSize`: whether `_cover` exists (and its height),
whether the scroll owns a widget (and its height), and whether
`_scrollShadow` exists. -/
structure SizeCtx where
  coverHeight : Option Int
  widgetHeight : Option Int
  hasScrollShadow : Bool
  deriving Repr, DecidableEq

/-- Result of `Panel::updateSize`: the size passed to `resize`, the
visibility set on `_scroll`, and the visibility set on `_scrollShadow`
(`none` when no shadow exists, so no call is made). -/
structure SizeResult where
  width : Int
  height : Int
  scrollVisible : Bool
  shadowVisible : Option Bool
  deriving Repr, DecidableEq

/-- Source `Panel::updateSize`, line for line:
`width = contentLeft() + st::mediaPlayerPanelWidth + contentRight()`;
`height = contentTop() [+ _cover->height()] + scrollHeight + contentBottom()`
with `scrollHeight = qMin(listHeight, st::mediaPlayerListHeightMax)
 + st::mediaPlayerListMarginBottom` when `listHeight > 0`, else `0`. -/
def updateSize (st : Style) (layout : Layout) (c : SizeCtx) : SizeResult :=
  let width := contentLeft st + st.mediaPlayerPanelWidth + contentRight st layout
  let height := contentTop st layout
  let height := match c.coverHeight with
    | some h => height + h
    | none => height
  let listHeight := match c.widgetHeight with
    | some h => h
    | none => 0
  let scrollVisible := listHeight > 0
  let scrollHeight := if scrollVisible then
      min listHeight st.mediaPlayerListHeightMax + st.mediaPlayerListMarginBottom
    else 0
  { width := width
    height := height + scrollHeight + contentBottom st
    scrollVisible := scrollVisible
    shadowVisible := if c.hasScrollShadow then some scrollVisible else none }

/-! ## `Panel::updateControlsGeometry` -/

/-- Inputs of `Panel::updateControlsGeometry`: the widget's current height
and whether `_cover` exists (with its height). -/
structure GeometryCtx where
  panelHeight : Int
  coverHeight : Option Int
  deriving Repr, DecidableEq

/-- Result of `Panel::updateControlsGeometry` restricted to the scroll area:
the computed `scrollHeight` and the geometry passed to
`_scroll->setGeometryToRight` when it is set (`none` when the guard
`scrollHeight > 0` fails and the geometry is left unchanged). -/
structure GeometryResult where
  scrollHeight : Int
  scrollGeometrySet : Option (Int × Int)
  deriving Repr, DecidableEq

/-- Source `Panel::updateControlsGeometry`:
`scrollTop = contentTop() [+ _cover->height()]`;
`scrollHeight = qMax(height() - scrollTop - contentBottom()
 - scrollMarginBottom(), 0)`; the scroll geometry is set only when
`scrollHeight > 0`. -/
def updateControlsGeometry (st : Style) (layout : Layout)
    (c : GeometryCtx) : GeometryResult :=
  let scrollTop := contentTop st layout
  let scrollTop := match c.coverHeight with
    | some h => scrollTop + h
    | none => scrollTop
  let scrollHeight :=
    max (c.panelHeight - scrollTop - contentBottom st - scrollMarginBottom) 0
  { scrollHeight := scrollHeight
    scrollGeometrySet :=
      if scrollHeight > 0 then some (scrollTop, scrollHeight) else none }

/-! ## Enter/leave event hooks (`Panel::enterEventHook`, `Panel::leaveEventHook`)

The hooks only cancel/arm the two `base::Timer`s and possibly call
`startShow`/`startHide`; their observable behaviour is the sequence of those
effects. -/

/-- One timer/transition effect performed by an event hook. -/
inductive HookAction where
  | cancelShowTimer : HookAction
  | cancelHideTimer : HookAction
  | armShowTimer (delayMs : Int) : HookAction
  | armHideTimer (delayMs : Int) : HookAction
  | callStartShow : HookAction
  | callStartHide : HookAction
  deriving Repr, DecidableEq

/-- The state read by the hooks: `_ignoringEnterEvents`, `contentTooSmall()`,
`preventAutoHide()` and `_a_appearance.animating(getms())`. -/
structure HookCtx where
  ignoringEnterEvents : Bool
  contentTooSmall : Bool
  preventAutoHide : Bool
  animating : Bool
  deriving Repr, DecidableEq

/-- Source `Panel::enterEventHook`: returns early when `_ignoringEnterEvents` or
`contentTooSmall()`; otherwise cancels the hide timer, then calls
`startShow` when animating, else arms the show timer once with 0 ms. -/
def enterEventHook (c : HookCtx) : List HookAction :=
  if c.ignoringEnterEvents || c.contentTooSmall then []
  else
    HookAction.cancelHideTimer ::
      (if c.animating then [HookAction.callStartShow]
       else [HookAction.armShowTimer 0])

/-- Source `Panel::leaveEventHook`: returns early when `preventAutoHide()`;
otherwise cancels the show timer, then calls `startHide` when animating,
else arms the hide timer once with 300 ms. -/
def leaveEventHook (c : HookCtx) : List HookAction :=
  if c.preventAutoHide then []
  else
    HookAction.cancelShowTimer ::
      (if c.animating then [HookAction.callStartHide]
       else [HookAction.armHideTimer 300])

/-! ## The panel state machine

The mutable fields of `Media::Player::Panel` and its member functions as
explicit state transitions.  Peers are identified by `Nat` ids; the playlist
provider (`instance()`), the message/media/document lookup and the peer
migration links are external data carried in an `Env`. -/

/-- External data read by `Panel::refreshList`: the resolution chain
`current.contextId() → App::histItemById → getMedia → getDocument →
isSharedMediaMusic → item->history()->peer`, the peer migration links, and
the properties of a freshly created `Info::Media::ListWidget`. -/
structure Env where
  contextIdNonzero : Bool
  itemFound : Bool
  hasMedia : Bool
  hasDocument : Bool
  isSharedMediaMusic : Bool
  historyPeer : Nat
  migrateTo : Nat → Option Nat
  migrateFrom : Nat → Option Nat
  newListHeight : Int
  newListPreventAutoHide : Bool

/-- The peer-resolution lambda inside `Panel::refreshList`: walks
item → media → document, requires `isSharedMediaMusic`, and replaces the
history peer by its `migrateTo` target when one exists. -/
def resolvePeer (e : Env) : Option Nat :=
  let document :=
    e.contextIdNonzero && e.itemFound && e.hasMedia && e.hasDocument
  if !document || !e.isSharedMediaMusic then none
  else match e.migrateTo e.historyPeer with
    | some m => some m
    | none => some e.historyPeer

/-- Source line `const auto migrated = peer ? peer->migrateFrom() : nullptr;`. -/
def resolveMigrated (e : Env) : Option Nat :=
  match resolvePeer e with
  | some p => e.migrateFrom p
  | none => none

/-- The mutable fields of `Media::Player::Panel` (plus the ghost field
`lastShownContentOk`, which records the value of `!contentTooSmall()` at the
moment of the last `show()` call). -/
structure PanelState where
  layout : Layout
  style : Style
  hidden : Bool
  isHiding : Bool
  animating : Bool
  cacheSet : Bool
  ignoringEnterEvents : Bool
  cover : Bool
  scrollShadow : Bool
  hasWidget : Bool
  widgetHeight : Int
  listPreventAutoHide : Bool
  listPeer : Option Nat
  listMigratedPeer : Option Nat
  subscribed : Bool
  lastShownContentOk : Bool
  hasScroll : Bool
  deriving DecidableEq

/-- Source `Panel::Panel`: the constructor creates `_scroll`, calls `hide()`
and `updateSize()`; all owned pointers are empty and `_listPeer`,
`_listMigratedPeer` are null. -/
def initState (layout : Layout) (st : Style) : PanelState :=
  { layout := layout
    style := st
    hidden := true
    isHiding := false
    animating := false
    cacheSet := false
    ignoringEnterEvents := false
    cover := false
    scrollShadow := false
    hasWidget := false
    widgetHeight := 0
    listPreventAutoHide := false
    listPeer := none
    listMigratedPeer := none
    subscribed := false
    lastShownContentOk := false
    hasScroll := true }

/-- Source `Panel::contentTooSmall`: the inner height is the scroll widget's
height when one exists, else `emptyInnerHeight()`; too small when that is at
most `emptyInnerHeight()` and there is no cover. -/
def contentTooSmall (s : PanelState) : Bool :=
  let innerHeight :=
    if s.hasWidget then s.widgetHeight else emptyInnerHeight s.style
  innerHeight ≤ emptyInnerHeight s.style && !s.cover

/-- Source `Panel::preventAutoHide`: asks the list widget when one exists,
else `false`. -/
def preventAutoHide (s : PanelState) : Bool :=
  s.hasWidget && s.listPreventAutoHide

/-- The condition `_listPeer != peer || _listMigratedPeer != migrated` in
`Panel::refreshList`. -/
def pairDiffers (e : Env) (s : PanelState) : Bool :=
  s.listPeer != resolvePeer e || s.listMigratedPeer != resolveMigrated e

/-- Result of one `Panel::refreshList` call: the new state, whether an
existing list widget was destroyed (`takeWidget` ran and a widget existed),
and whether a new list widget was created. -/
structure RefreshResult where
  state : PanelState
  removed : Bool
  created : Bool

/-- Source `Panel::refreshList`: when the resolved `(peer, migrated)` pair
differs from `(_listPeer, _listMigratedPeer)`, the scroll's widget is taken
and destroyed and both fields are reset to null; then, when `peer` is
non-null and `_listPeer` is null, both fields are set and a fresh list
widget is installed in the scroll. -/
def refreshListAux (e : Env) (s : PanelState) : RefreshResult :=
  let peer := resolvePeer e
  let migrated := resolveMigrated e
  let removed := pairDiffers e s && s.hasWidget
  let s :=
    if pairDiffers e s then
      { s with hasWidget := false, listPeer := none, listMigratedPeer := none }
    else s
  if peer.isSome && s.listPeer.isNone then
    { state :=
        { s with
          listPeer := peer
          listMigratedPeer := migrated
          hasWidget := true
          widgetHeight := e.newListHeight
          listPreventAutoHide := e.newListPreventAutoHide }
      removed := removed
      created := true }
  else
    { state := s, removed := removed, created := false }

/-- State part of `Panel::refreshList`. -/
def refreshList (e : Env) (s : PanelState) : PanelState :=
  (refreshListAux e s).state

/-- Source `Panel::ensureCreated`: early return when a scroll widget exists;
otherwise create `_cover` and `_scrollShadow` for `Layout::Full`, subscribe
`refreshList` to the Song playlist changes, call `refreshList`, and clear
`_ignoringEnterEvents`.  The creation of cover/shadow and the subscription,
which precede the `refreshList()` call, are split into `ensureCreatedPrep`. -/
def ensureCreatedPrep (s : PanelState) : PanelState :=
  if s.layout = Layout.Full then
    { s with cover := true, scrollShadow := true, subscribed := true }
  else { s with subscribed := true }

def ensureCreated (e : Env) (s : PanelState) : PanelState :=
  if s.hasWidget then s
  else { refreshList e (ensureCreatedPrep s) with ignoringEnterEvents := false }

/-- Source `Panel::performDestroy`: early return when no scroll widget;
otherwise destroy `_cover`, destroy the scroll's widget, null both peer
fields and destroy the playlist subscription (`_scrollShadow` is not
destroyed here). -/
def performDestroy (s : PanelState) : PanelState :=
  if !s.hasWidget then s
  else
    { s with
      cover := false
      hasWidget := false
      listPeer := none
      listMigratedPeer := none
      subscribed := false }

/-- Source `Panel::hideFinished`: `hide()`, drop the animation cache, and
`performDestroy()`. -/
def hideFinished (s : PanelState) : PanelState :=
  performDestroy { s with hidden := true, cacheSet := false }

/-- Source `Panel::startAnimation`: grab the cache when empty and start the
appearance animation. -/
def startAnimation (s : PanelState) : PanelState :=
  { s with cacheSet := true, animating := true }

/-- Source `Panel::startShow`: `ensureCreated()`, return when
`contentTooSmall()`, `show()` when hidden (recording the ghost field at that
moment), return when neither hidden nor hiding, then clear `_hiding` and
`startAnimation()`. -/
def startShow (e : Env) (s : PanelState) : PanelState :=
  let s := ensureCreated e s
  if contentTooSmall s then s
  else if s.hidden then
    startAnimation
      { s with
        hidden := false
        lastShownContentOk := !contentTooSmall s
        isHiding := false }
  else if !s.isHiding then s
  else startAnimation { s with isHiding := false }

/-- Source `Panel::startHide`: return when already hiding or hidden, else set
`_hiding` and `startAnimation()`. -/
def startHide (s : PanelState) : PanelState :=
  if s.isHiding || s.hidden then s
  else startAnimation { s with isHiding := true }

/-- Source `Panel::startHideChecked`: return when the content is not too
small and auto-hide is prevented; otherwise `hideFinished()` when hidden,
else `startHide()`. -/
def startHideChecked (s : PanelState) : PanelState :=
  if !contentTooSmall s && preventAutoHide s then s
  else if s.hidden then hideFinished s
  else startHide s

/-- Source `Panel::hideIgnoringEnterEvents`: set `_ignoringEnterEvents`, then
`hideFinished()` when hidden, else `startHide()`. -/
def hideIgnoringEnterEvents (s : PanelState) : PanelState :=
  let s := { s with ignoringEnterEvents := true }
  if s.hidden then hideFinished s
  else startHide s

/-- Source `Panel::appearanceCallback` at the moment the animation stops:
when `_hiding` is set, clear it and `hideFinished()`. -/
def animationFinished (s : PanelState) : PanelState :=
  let s := { s with animating := false }
  if s.isHiding then hideFinished { s with isHiding := false }
  else s

/-- A playlist-change notification from
`instance()->playlistChanges(AudioMsgId::Type::Song)`: it reaches
`refreshList` exactly while the subscription made in `ensureCreated` is
alive. -/
def onPlaylistChange (e : Env) (s : PanelState) : PanelState :=
  if s.subscribed then refreshList e s else s

/-- The list widget's `heightValue` notification followed by
`Panel::listHeightUpdated` (which only calls `updateSize()` or arms the hide
timer, so the only state change is the widget's new height). -/
def onListHeightUpdated (h : Int) (s : PanelState) : PanelState :=
  if s.hasWidget then { s with widgetHeight := h } else s

/-- State effect of `Panel::enterEventHook` (its timer effects are modelled
by `enterEventHook` above): `startShow()` runs only when animating. -/
def enterEventState (e : Env) (s : PanelState) : PanelState :=
  if s.ignoringEnterEvents || contentTooSmall s then s
  else if s.animating then startShow e s
  else s

/-- State effect of `Panel::leaveEventHook`: `startHide()` runs only when
animating. -/
def leaveEventState (s : PanelState) : PanelState :=
  if preventAutoHide s then s
  else if s.animating then startHide s
  else s

/-- Source `Panel::showFromOther`: `startShow()` when animating, else a timer
is armed (no immediate state change). -/
def showFromOther (e : Env) (s : PanelState) : PanelState :=
  if s.animating then startShow e s else s

/-- Source `Panel::hideFromOther`: `startHide()` when animating, else a timer
is armed (no immediate state change). -/
def hideFromOther (s : PanelState) : PanelState :=
  if s.animating then startHide s else s

/-- The operations that can hit the panel after construction: its public
member functions, the timer callbacks (`_showTimer → startShow`,
`_hideTimer → startHideChecked`), the event hooks, the animation callback
and the notifications from the playlist subscription and the list widget. -/
inductive Op where
  | ensureCreated (e : Env)
  | performDestroy
  | hideFinished
  | startShow (e : Env)
  | startHide
  | startHideChecked
  | hideIgnoringEnterEvents
  | animationFinished
  | playlistChanged (e : Env)
  | listHeightUpdated (h : Int)
  | setListPreventAutoHide (b : Bool)
  | enterEvent (e : Env)
  | leaveEvent
  | showFromOther (e : Env)
  | hideFromOther

/-- Apply one operation to the panel state. -/
def applyOp (op : Op) (s : PanelState) : PanelState :=
  match op with
  | Op.ensureCreated e => ensureCreated e s
  | Op.performDestroy => performDestroy s
  | Op.hideFinished => hideFinished s
  | Op.startShow e => startShow e s
  | Op.startHide => startHide s
  | Op.startHideChecked => startHideChecked s
  | Op.hideIgnoringEnterEvents => hideIgnoringEnterEvents s
  | Op.animationFinished => animationFinished s
  | Op.playlistChanged e => onPlaylistChange e s
  | Op.listHeightUpdated h => onListHeightUpdated h s
  | Op.setListPreventAutoHide b => { s with listPreventAutoHide := b }
  | Op.enterEvent e => enterEventState e s
  | Op.leaveEvent => leaveEventState s
  | Op.showFromOther e => showFromOther e s
  | Op.hideFromOther => hideFromOther s

/-- Run a sequence of operations from a state. -/
def runOps (ops : List Op) (s : PanelState) : PanelState :=
  ops.foldl (fun s op => applyOp op s) s

/-! ## Reachable-state invariant -/

/-- Structural invariant of the panel, established by the constructor and
preserved by every operation: the cover and the scroll shadow exist only in
the full layout; the scroll owns a list widget exactly when `_listPeer` is
set; a list widget implies a live playlist subscription; a visible panel was
shown while `contentTooSmall()` was false; and `_listMigratedPeer` is set
only together with `_listPeer`. -/
def PanelInv (s : PanelState) : Prop :=
  (s.cover = true → s.layout = Layout.Full)
    ∧ (s.scrollShadow = true → s.layout = Layout.Full)
    ∧ s.hasWidget = s.listPeer.isSome
    ∧ (s.hasWidget = true → s.subscribed = true)
    ∧ (s.hidden = false → s.lastShownContentOk = true)
    ∧ (s.listPeer = none → s.listMigratedPeer = none)
    ∧ s.hasScroll = true

theorem panelInv_initState (l : Layout) (st : Style) : PanelInv (initState l st) := by
  simp [PanelInv, initState]

theorem pairDiffers_false (e : Env) (s : PanelState)
    (h : pairDiffers e s = false) :
    s.listPeer = resolvePeer e ∧ s.listMigratedPeer = resolveMigrated e := by
  simpa [pairDiffers] using h

theorem panelInv_refreshList (e : Env) (s : PanelState) (hs : PanelInv s)
    (hsub : s.subscribed = true) : PanelInv (refreshList e s) := by
  obtain ⟨h1, h2, h3, h4, h5, h6, h7⟩ := hs
  cases hd : pairDiffers e s with
  | false =>
      obtain ⟨hpl, _⟩ := pairDiffers_false e s hd
      cases hp : resolvePeer e with
      | none =>
          rw [hp] at hpl
          simp_all [PanelInv, refreshList, refreshListAux]
      | some p =>
          rw [hp] at hpl
          simp_all [PanelInv, refreshList, refreshListAux]
  | true =>
      cases hp : resolvePeer e with
      | none =>
          simp only [refreshList, refreshListAux, hd, hp]
          refine ⟨h1, h2, by simp, by simp, h5, by simp, h7⟩
      | some p =>
          simp only [refreshList, refreshListAux, hd, hp]
          refine ⟨h1, h2, by simp, fun _ => hsub, h5, by simp, h7⟩

theorem panelInv_setIgnoring (s : PanelState) (b : Bool) (hs : PanelInv s) :
    PanelInv { s with ignoringEnterEvents := b } := by
  obtain ⟨h1, h2, h3, h4, h5, h6, h7⟩ := hs
  exact ⟨h1, h2, h3, h4, h5, h6, h7⟩

theorem panelInv_ensureCreated (e : Env) (s : PanelState) (hs : PanelInv s) :
    PanelInv (ensureCreated e s) := by
  by_cases hw : s.hasWidget = true
  · simpa [ensureCreated, hw] using hs
  · have hmid : PanelInv (ensureCreatedPrep s) := by
      obtain ⟨h1, h2, h3, h4, h5, h6, h7⟩ := hs
      by_cases hl : s.layout = Layout.Full <;>
        simp_all [PanelInv, ensureCreatedPrep]
    have hsub : (ensureCreatedPrep s).subscribed = true := by
      by_cases hl : s.layout = Layout.Full <;> simp [ensureCreatedPrep, hl]
    have happly := panelInv_refreshList e _ hmid hsub
    simp only [ensureCreated, hw, if_false]
    exact panelInv_setIgnoring _ _ happly

theorem panelInv_performDestroy (s : PanelState) (hs : PanelInv s) :
    PanelInv (performDestroy s) := by
  obtain ⟨h1, h2, h3, h4, h5, h6, h7⟩ := hs
  by_cases hw : s.hasWidget = true <;> simp_all [PanelInv, performDestroy]

theorem panelInv_hideFinished (s : PanelState) (hs : PanelInv s) :
    PanelInv (hideFinished s) := by
  obtain ⟨h1, h2, h3, h4, h5, h6, h7⟩ := hs
  have : PanelInv { s with hidden := true, cacheSet := false } := by
    simp_all [PanelInv]
  exact panelInv_performDestroy _ this

theorem panelInv_startAnimation (s : PanelState) (hs : PanelInv s) :
    PanelInv (startAnimation s) := by
  obtain ⟨h1, h2, h3, h4, h5, h6, h7⟩ := hs
  simp_all [PanelInv, startAnimation]

theorem panelInv_startShow (e : Env) (s : PanelState) (hs : PanelInv s) :
    PanelInv (startShow e s) := by
  have h1 := panelInv_ensureCreated e s hs
  obtain ⟨g1, g2, g3, g4, g5, g6, g7⟩ := h1
  simp only [startShow]
  split_ifs with hc hh hn
  · exact ⟨g1, g2, g3, g4, g5, g6, g7⟩
  · apply panelInv_startAnimation
    simp_all [PanelInv]
  · exact ⟨g1, g2, g3, g4, g5, g6, g7⟩
  · apply panelInv_startAnimation
    simp_all [PanelInv]

theorem panelInv_startHide (s : PanelState) (hs : PanelInv s) : PanelInv (startHide s) := by
  obtain ⟨h1, h2, h3, h4, h5, h6, h7⟩ := hs
  simp only [startHide]
  split_ifs with h
  · exact ⟨h1, h2, h3, h4, h5, h6, h7⟩
  · apply panelInv_startAnimation
    simp_all [PanelInv]

theorem panelInv_startHideChecked (s : PanelState) (hs : PanelInv s) :
    PanelInv (startHideChecked s) := by
  simp only [startHideChecked]
  split_ifs with h hh
  · exact hs
  · exact panelInv_hideFinished s hs
  · exact panelInv_startHide s hs

theorem panelInv_hideIgnoringEnterEvents (s : PanelState) (hs : PanelInv s) :
    PanelInv (hideIgnoringEnterEvents s) := by
  obtain ⟨h1, h2, h3, h4, h5, h6, h7⟩ := hs
  have hmid : PanelInv { s with ignoringEnterEvents := true } := by
    simp_all [PanelInv]
  simp only [hideIgnoringEnterEvents]
  split_ifs with h
  · exact panelInv_hideFinished _ hmid
  · exact panelInv_startHide _ hmid

theorem panelInv_animationFinished (s : PanelState) (hs : PanelInv s) :
    PanelInv (animationFinished s) := by
  obtain ⟨h1, h2, h3, h4, h5, h6, h7⟩ := hs
  have hmid : PanelInv { s with animating := false } := by
    simp_all [PanelInv]
  simp only [animationFinished]
  split_ifs with h
  · apply panelInv_hideFinished
    simp_all [PanelInv]
  · exact hmid

theorem panelInv_onPlaylistChange (e : Env) (s : PanelState) (hs : PanelInv s) :
    PanelInv (onPlaylistChange e s) := by
  simp only [onPlaylistChange]
  split_ifs with h
  · exact panelInv_refreshList e s hs h
  · exact hs

theorem panelInv_applyOp (op : Op) (s : PanelState) (hs : PanelInv s) :
    PanelInv (applyOp op s) := by
  obtain ⟨h1, h2, h3, h4, h5, h6, h7⟩ := hs
  cases op with
  | ensureCreated e => exact panelInv_ensureCreated e s ⟨h1, h2, h3, h4, h5, h6, h7⟩
  | performDestroy => exact panelInv_performDestroy s ⟨h1, h2, h3, h4, h5, h6, h7⟩
  | hideFinished => exact panelInv_hideFinished s ⟨h1, h2, h3, h4, h5, h6, h7⟩
  | startShow e => exact panelInv_startShow e s ⟨h1, h2, h3, h4, h5, h6, h7⟩
  | startHide => exact panelInv_startHide s ⟨h1, h2, h3, h4, h5, h6, h7⟩
  | startHideChecked => exact panelInv_startHideChecked s ⟨h1, h2, h3, h4, h5, h6, h7⟩
  | hideIgnoringEnterEvents =>
      exact panelInv_hideIgnoringEnterEvents s ⟨h1, h2, h3, h4, h5, h6, h7⟩
  | animationFinished => exact panelInv_animationFinished s ⟨h1, h2, h3, h4, h5, h6, h7⟩
  | playlistChanged e => exact panelInv_onPlaylistChange e s ⟨h1, h2, h3, h4, h5, h6, h7⟩
  | listHeightUpdated h =>
      simp only [applyOp, onListHeightUpdated]
      split_ifs with hw <;> simp_all [PanelInv]
  | setListPreventAutoHide b =>
      simp_all [PanelInv, applyOp]
  | enterEvent e =>
      simp only [applyOp, enterEventState]
      split_ifs with hi ha
      · exact ⟨h1, h2, h3, h4, h5, h6, h7⟩
      · exact panelInv_startShow e s ⟨h1, h2, h3, h4, h5, h6, h7⟩
      · exact ⟨h1, h2, h3, h4, h5, h6, h7⟩
  | leaveEvent =>
      simp only [applyOp, leaveEventState]
      split_ifs with hi ha
      · exact ⟨h1, h2, h3, h4, h5, h6, h7⟩
      · exact panelInv_startHide s ⟨h1, h2, h3, h4, h5, h6, h7⟩
      · exact ⟨h1, h2, h3, h4, h5, h6, h7⟩
  | showFromOther e =>
      simp only [applyOp, showFromOther]
      split_ifs with ha
      · exact panelInv_startShow e s ⟨h1, h2, h3, h4, h5, h6, h7⟩
      · exact ⟨h1, h2, h3, h4, h5, h6, h7⟩
  | hideFromOther =>
      simp only [applyOp, hideFromOther]
      split_ifs with ha
      · exact panelInv_startHide s ⟨h1, h2, h3, h4, h5, h6, h7⟩
      · exact ⟨h1, h2, h3, h4, h5, h6, h7⟩

theorem panelInv_runOps (ops : List Op) (s : PanelState) (hs : PanelInv s) :
    PanelInv (runOps ops s) := by
  induction ops generalizing s with
  | nil => exact hs
  | cons op ops ih =>
      exact ih (applyOp op s) (panelInv_applyOp op s hs)

theorem panelInv_reachable (l : Layout) (st : Style) (ops : List Op) :
    PanelInv (runOps ops (initState l st)) :=
  panelInv_runOps ops (initState l st) (panelInv_initState l st)

/-! ## Field-preservation lemmas -/

theorem refreshList_layout (e : Env) (s : PanelState) :
    (refreshList e s).layout = s.layout := by
  simp only [refreshList, refreshListAux]
  split_ifs <;> rfl

theorem refreshList_hidden (e : Env) (s : PanelState) :
    (refreshList e s).hidden = s.hidden := by
  simp only [refreshList, refreshListAux]
  split_ifs <;> rfl

theorem refreshList_cover (e : Env) (s : PanelState) :
    (refreshList e s).cover = s.cover := by
  simp only [refreshList, refreshListAux]
  split_ifs <;> rfl

theorem refreshList_scrollShadow (e : Env) (s : PanelState) :
    (refreshList e s).scrollShadow = s.scrollShadow := by
  simp only [refreshList, refreshListAux]
  split_ifs <;> rfl

theorem refreshList_subscribed (e : Env) (s : PanelState) :
    (refreshList e s).subscribed = s.subscribed := by
  simp only [refreshList, refreshListAux]
  split_ifs <;> rfl

theorem ensureCreated_hidden (e : Env) (s : PanelState) :
    (ensureCreated e s).hidden = s.hidden := by
  simp only [ensureCreated]
  split_ifs with hw
  · rfl
  · show (refreshList e (ensureCreatedPrep s)).hidden = s.hidden
    rw [refreshList_hidden]
    simp only [ensureCreatedPrep]
    split_ifs <;> rfl

theorem ensureCreated_cover (e : Env) (s : PanelState) :
    (ensureCreated e s).cover
      = (s.cover || (!s.hasWidget && decide (s.layout = Layout.Full))) := by
  simp only [ensureCreated]
  split_ifs with hw
  · simp [hw]
  · show (refreshList e (ensureCreatedPrep s)).cover = _
    rw [refreshList_cover]
    simp only [ensureCreatedPrep]
    split_ifs with hl <;> simp_all

theorem ensureCreated_scrollShadow (e : Env) (s : PanelState) :
    (ensureCreated e s).scrollShadow
      = (s.scrollShadow || (!s.hasWidget && decide (s.layout = Layout.Full))) := by
  simp only [ensureCreated]
  split_ifs with hw
  · simp [hw]
  · show (refreshList e (ensureCreatedPrep s)).scrollShadow = _
    rw [refreshList_scrollShadow]
    simp only [ensureCreatedPrep]
    split_ifs with hl <;> simp_all

/-! ## Concrete sample data (used by the witnesses) -/

/-- A concrete style valuation. -/
def styleA : Style :=
  { mediaPlayerPanelWidth := 300
    mediaPlayerListHeightMax := 400
    mediaPlayerListMarginBottom := 8
    mediaPlayerPanelMarginLeft := 10
    mediaPlayerPanelMarginBottom := 12
    infoMediaMarginTop := 4
    infoMediaMarginBottom := 4
    songPaddingTop := 5
    songPaddingBottom := 5
    songThumbSize := 40
    scrollShadowExtendBottom := 3 }

/-- An environment in which the current song resolves to no peer (no playing
context). -/
def envNone : Env :=
  { contextIdNonzero := false
    itemFound := false
    hasMedia := false
    hasDocument := false
    isSharedMediaMusic := false
    historyPeer := 0
    migrateTo := fun _ => none
    migrateFrom := fun _ => none
    newListHeight := 600
    newListPreventAutoHide := false }

/-- An environment in which the current song resolves to peer 7 with no
migration links. -/
def envPeer : Env :=
  { contextIdNonzero := true
    itemFound := true
    hasMedia := true
    hasDocument := true
    isSharedMediaMusic := true
    historyPeer := 7
    migrateTo := fun _ => none
    migrateFrom := fun _ => none
    newListHeight := 600
    newListPreventAutoHide := false }

/-! ## Claims -/

/-- C1: show/hide transitions are timer-driven.  When `leaveEventHook` runs
with `preventAutoHide()` false it cancels the show timer and then either
calls `startHide` immediately (appearance animation running) or arms the
hide timer once with a 300 ms delay; when `enterEventHook` runs with
`_ignoringEnterEvents` false and `contentTooSmall()` false it cancels the
hide timer and then either calls `startShow` immediately (animation
running) or arms the show timer once with a 0 ms delay. -/
theorem C1_hooks_timer_driven (c : HookCtx) :
    (c.preventAutoHide = false →
      (c.animating = true →
        leaveEventHook c
          = [HookAction.cancelShowTimer, HookAction.callStartHide]) ∧
      (c.animating = false →
        leaveEventHook c
          = [HookAction.cancelShowTimer, HookAction.armHideTimer 300]))
    ∧ (c.ignoringEnterEvents = false → c.contentTooSmall = false →
      (c.animating = true →
        enterEventHook c
          = [HookAction.cancelHideTimer, HookAction.callStartShow]) ∧
      (c.animating = false →
        enterEventHook c
          = [HookAction.cancelHideTimer, HookAction.armShowTimer 0])) := by
  refine ⟨fun hp => ⟨fun ha => ?_, fun ha => ?_⟩,
    fun hi hc => ⟨fun ha => ?_, fun ha => ?_⟩⟩ <;>
      simp_all [leaveEventHook, enterEventHook]

/-- Witness for C1 at a concrete hook context (not animating, nothing
preventing the transition). -/
theorem C1_hooks_timer_driven_witness :
    leaveEventHook ⟨false, false, false, false⟩
        = [HookAction.cancelShowTimer, HookAction.armHideTimer 300]
      ∧ enterEventHook ⟨false, false, false, false⟩
        = [HookAction.cancelHideTimer, HookAction.armShowTimer 0] :=
  ⟨((C1_hooks_timer_driven ⟨false, false, false, false⟩).1 rfl).2 rfl,
   (((C1_hooks_timer_driven ⟨false, false, false, false⟩).2 rfl) rfl).2 rfl⟩

/-- C3: `overlaps(globalRect)` is `false` whenever the panel is hidden or the
appearance animation runs; otherwise it is exactly containment of the global
rectangle, mapped into widget coordinates, in the panel's rectangle with the
content margins removed (left/right swapped under RTL). -/
theorem C3_overlaps_spec (st : Style) (layout : Layout) (c : OverlapsCtx)
    (g : QRect) :
    (c.hidden = true ∨ c.animating = true → overlaps st layout c g = false)
    ∧ (c.hidden = false → c.animating = false →
        overlaps st layout c g
          = QRect.contains
              (c.rect.marginsRemoved
                ⟨if c.rtl then contentRight st layout else contentLeft st,
                 contentTop st layout,
                 if c.rtl then contentLeft st else contentRight st layout,
                 contentBottom st⟩)
              (QRect.mk' (c.mapFromGlobal g.topLeft) g.size)) := by
  constructor
  · rintro (h | h) <;> simp [overlaps, h]
  · intro h1 h2
    simp [overlaps, h1, h2]

/-- Witness for C3: a hidden panel overlaps nothing, and a visible static
panel's overlap is the containment test, evaluated at concrete data. -/
theorem C3_overlaps_spec_witness :
    overlaps styleA Layout.Full ⟨true, false, false, 100, 100, 0, 0⟩
        ⟨0, 0, 9, 9⟩ = false
      ∧ overlaps styleA Layout.Other ⟨false, false, false, 100, 100, 20, 30⟩
        ⟨40, 40, 49, 49⟩
        = QRect.contains
            ((OverlapsCtx.rect ⟨false, false, false, 100, 100, 20, 30⟩).marginsRemoved
              ⟨contentLeft styleA, contentTop styleA Layout.Other,
               contentRight styleA Layout.Other, contentBottom styleA⟩)
            (QRect.mk'
              (OverlapsCtx.mapFromGlobal ⟨false, false, false, 100, 100, 20, 30⟩
                (QRect.topLeft ⟨40, 40, 49, 49⟩))
              (QRect.size ⟨40, 40, 49, 49⟩)) :=
  ⟨(C3_overlaps_spec styleA Layout.Full ⟨true, false, false, 100, 100, 0, 0⟩
      ⟨0, 0, 9, 9⟩).1 (Or.inl rfl),
   (C3_overlaps_spec styleA Layout.Other ⟨false, false, false, 100, 100, 20, 30⟩
      ⟨40, 40, 49, 49⟩).2 rfl rfl⟩

/-- C4: `updateSize` is pure geometry arithmetic: the width is always
`contentLeft() + st::mediaPlayerPanelWidth + contentRight()`; the height is
`contentTop()`, plus the cover height when a cover exists, plus
`min(listHeight, st::mediaPlayerListHeightMax) + st::mediaPlayerListMarginBottom`
when the inner list height is positive, plus `contentBottom()`; the scroll
area, and the scroll shadow when one exists, are made visible exactly when
the inner list height is positive. -/
theorem C4_updateSize_spec (st : Style) (layout : Layout) (c : SizeCtx) :
    (updateSize st layout c).width
        = contentLeft st + st.mediaPlayerPanelWidth + contentRight st layout
    ∧ (updateSize st layout c).height
        = contentTop st layout
          + (match c.coverHeight with | some h => h | none => 0)
          + (if 0 < c.widgetHeight.getD 0 then
              min (c.widgetHeight.getD 0) st.mediaPlayerListHeightMax
                + st.mediaPlayerListMarginBottom
             else 0)
          + contentBottom st
    ∧ (updateSize st layout c).scrollVisible = decide (0 < c.widgetHeight.getD 0)
    ∧ (updateSize st layout c).shadowVisible
        = (if c.hasScrollShadow then
            some (decide (0 < c.widgetHeight.getD 0)) else none) := by
  cases hc : c.coverHeight <;> cases hw : c.widgetHeight <;>
    refine ⟨?_, ?_, ?_, ?_⟩ <;>
      simp [updateSize, hc, hw, Int.lt_iff_add_one_le]

/-- C5: `updateControlsGeometry` computes the scroll height as
`max(height() - scrollTop - contentBottom() - scrollMarginBottom(), 0)`,
which is never negative, and the scroll geometry is changed exactly when that
height is strictly positive. -/
theorem C5_scrollHeight_nonneg (st : Style) (layout : Layout)
    (c : GeometryCtx) :
    0 ≤ (updateControlsGeometry st layout c).scrollHeight
    ∧ (updateControlsGeometry st layout c).scrollHeight
        = max (c.panelHeight
            - (contentTop st layout
                + (match c.coverHeight with | some h => h | none => 0))
            - contentBottom st - scrollMarginBottom) 0
    ∧ (updateControlsGeometry st layout c).scrollGeometrySet.isSome
        = decide (0 < (updateControlsGeometry st layout c).scrollHeight) := by
  cases hc : c.coverHeight <;>
    refine ⟨le_max_right _ _, by simp [updateControlsGeometry, hc], ?_⟩ <;>
      simp only [updateControlsGeometry, hc] <;> split_ifs <;> simp_all

theorem performDestroy_hidden (s : PanelState) :
    (performDestroy s).hidden = s.hidden := by
  simp only [performDestroy]
  split_ifs <;> rfl

theorem hideFinished_hidden (s : PanelState) :
    (hideFinished s).hidden = true := by
  simp [hideFinished, performDestroy_hidden]

/-- Source `Panel::peer`: declared `not_null<PeerData*>` but simply returns
the raw `_listPeer` field, which may be null. -/
def panelPeer (s : PanelState) : Option Nat := s.listPeer

/-- The `not_null` return contract of `Panel::peer` is violated exactly when
the returned `_listPeer` is null. -/
def peerContractViolated (s : PanelState) : Bool := (panelPeer s).isNone

/-- The panel state reached by constructing a full-layout panel and running
`ensureCreated` while peer 7's playlist is playing: the scroll owns a list
widget and `_listPeer` is peer 7. -/
def c2State : PanelState :=
  runOps [Op.ensureCreated envPeer] (initState Layout.Full styleA)

/-- C2 (amended): after `ensureCreated` the playlist subscription for the
Song audio type is alive and every notification arriving while it is alive
triggers `refreshList`; `refreshList` destroys the scroll-owned list widget
exactly when the resolved `(peer, migrated)` pair differs from the stored
`(_listPeer, _listMigratedPeer)` pair, and creates a new one exactly when
the pair differs and the resolved peer is non-null; when the pair is
unchanged the existing list widget is left in place (the state is
untouched). -/
theorem C2_playlist_wiring (l : Layout) (st : Style) (ops : List Op)
    (e : Env) (s : PanelState) :
    (ensureCreated e (runOps ops (initState l st))).subscribed = true
    ∧ (s.subscribed = true → onPlaylistChange e s = refreshList e s)
    ∧ (refreshListAux e s).removed = (pairDiffers e s && s.hasWidget)
    ∧ (refreshListAux e s).created
        = (pairDiffers e s && (resolvePeer e).isSome)
    ∧ (pairDiffers e s = false → refreshList e s = s) := by
  refine ⟨?_, ?_, ?_, ?_, ?_⟩
  · obtain ⟨h1, h2, h3, h4, h5, h6, h7⟩ := panelInv_reachable l st ops
    by_cases hw : (runOps ops (initState l st)).hasWidget = true
    · simpa [ensureCreated, hw] using h4 hw
    · simp only [ensureCreated, hw, if_false]
      show (refreshList e (ensureCreatedPrep (runOps ops (initState l st)))).subscribed
        = true
      rw [refreshList_subscribed]
      simp only [ensureCreatedPrep]
      split_ifs <;> rfl
  · intro h
    simp [onPlaylistChange, h]
  · simp only [refreshListAux]
    split_ifs <;> rfl
  · cases hd : pairDiffers e s with
    | false =>
        obtain ⟨hpl, _⟩ := pairDiffers_false e s hd
        cases hp : resolvePeer e with
        | none => simp [refreshListAux, hd, hp]
        | some p =>
            rw [hp] at hpl
            simp [refreshListAux, hd, hp, hpl]
    | true =>
        cases hp : resolvePeer e with
        | none => simp [refreshListAux, hd, hp]
        | some p => simp [refreshListAux, hd, hp]
  · intro hd
    obtain ⟨hpl, _⟩ := pairDiffers_false e s hd
    cases hp : resolvePeer e with
    | none =>
        simp [refreshList, refreshListAux, hd, hp]
    | some p =>
        rw [hp] at hpl
        simp [refreshList, refreshListAux, hd, hp, hpl]

/-- Witness for C2 (amended), at the concrete reachable state `c2State` and
the environments `envPeer` (same pair: state untouched) and `envNone`
(differing pair with null peer: widget destroyed, none created). -/
theorem C2_playlist_wiring_witness :
    (ensureCreated envPeer (runOps [] (initState Layout.Full styleA))).subscribed
        = true
      ∧ onPlaylistChange envPeer c2State = refreshList envPeer c2State
      ∧ refreshList envPeer c2State = c2State
      ∧ (refreshListAux envNone c2State).removed
          = (pairDiffers envNone c2State && c2State.hasWidget) :=
  ⟨(C2_playlist_wiring Layout.Full styleA [] envPeer c2State).1,
   (C2_playlist_wiring Layout.Full styleA [] envPeer c2State).2.1 (by decide),
   (C2_playlist_wiring Layout.Full styleA [] envPeer c2State).2.2.2.2 (by decide),
   (C2_playlist_wiring Layout.Full styleA [] envNone c2State).2.2.1⟩

/-- C2 counterexample: at the reachable state `c2State` (list widget present
for peer 7) with the playlist no longer resolving to any peer (`envNone`),
the `(peer, migrated)` pair differs from the stored pair, yet `refreshList`
only destroys the list widget and does not recreate it — so "destroys and
recreates if and only if the pair differs" is false as stated. -/
theorem C2_playlist_wiring_counterexample :
    ¬(((refreshListAux envNone c2State).removed
          && (refreshListAux envNone c2State).created) = true
        ↔ pairDiffers envNone c2State = true) := by
  decide

/-- C6: the scroll area exists from construction in every layout and every
reachable state; in every reachable state the cover and the scroll shadow
exist only if the layout is `Layout::Full`; and `ensureCreated` creates the
cover and the scroll shadow exactly when no list widget exists yet and the
layout is `Layout::Full`. -/
theorem C6_framework_primitives (l : Layout) (st : Style) (ops : List Op) :
    (runOps ops (initState l st)).hasScroll = true
    ∧ ((runOps ops (initState l st)).cover = true →
        (runOps ops (initState l st)).layout = Layout.Full)
    ∧ ((runOps ops (initState l st)).scrollShadow = true →
        (runOps ops (initState l st)).layout = Layout.Full)
    ∧ (∀ (e : Env) (s : PanelState),
        (ensureCreated e s).cover
          = (s.cover || (!s.hasWidget && decide (s.layout = Layout.Full))))
    ∧ (∀ (e : Env) (s : PanelState),
        (ensureCreated e s).scrollShadow
          = (s.scrollShadow
              || (!s.hasWidget && decide (s.layout = Layout.Full)))) := by
  obtain ⟨h1, h2, h3, h4, h5, h6, h7⟩ := panelInv_reachable l st ops
  exact ⟨h7, h1, h2, ensureCreated_cover, ensureCreated_scrollShadow⟩

/-- Witness for C6 at a full-layout panel after `ensureCreated`: the cover
exists and the layout is indeed `Layout::Full`. -/
theorem C6_framework_primitives_witness :
    (runOps [Op.ensureCreated envPeer] (initState Layout.Full styleA)).layout
      = Layout.Full :=
  (C6_framework_primitives Layout.Full styleA
    [Op.ensureCreated envPeer]).2.1 (by decide)

/-- C8: `Panel::peer` returns the raw `_listPeer`, which is null at
construction and in every reachable state without a list widget, violating
the declared `not_null` contract there; `performDestroy` resets it to
null. -/
theorem C8_peer_not_null_contract (l : Layout) (st : Style) (ops : List Op) :
    peerContractViolated (initState l st) = true
    ∧ ((runOps ops (initState l st)).hasWidget = false →
        peerContractViolated (runOps ops (initState l st)) = true)
    ∧ (∀ s : PanelState, panelPeer (performDestroy s)
        = if s.hasWidget then none else s.listPeer) := by
  refine ⟨rfl, ?_, ?_⟩
  · intro hw
    obtain ⟨h1, h2, h3, h4, h5, h6, h7⟩ := panelInv_reachable l st ops
    rw [hw] at h3
    cases hl : (runOps ops (initState l st)).listPeer with
    | none => simp [peerContractViolated, panelPeer, hl]
    | some p => rw [hl] at h3; simp at h3
  · intro s
    by_cases hw : s.hasWidget = true <;>
      simp [panelPeer, performDestroy, hw]

/-- Witness for C8: the contract is violated at the freshly constructed
panel, and `performDestroy` at the widget-owning state `c2State` returns a
null peer. -/
theorem C8_peer_not_null_contract_witness :
    peerContractViolated (runOps [] (initState Layout.Full styleA)) = true
      ∧ panelPeer (performDestroy c2State)
        = if c2State.hasWidget then none else c2State.listPeer :=
  ⟨(C8_peer_not_null_contract Layout.Full styleA []).2.1 (by decide),
   (C8_peer_not_null_contract Layout.Full styleA []).2.2 c2State⟩

/-- The operations whose execution can reach the `show()` call inside
`Panel::startShow` (the only `show()` call site in the file). -/
def opInvokesStartShow : Op → Bool
  | Op.startShow _ => true
  | Op.enterEvent _ => true
  | Op.showFromOther _ => true
  | _ => false

/-- C9: the panel never becomes visible while its content is too small: in
every reachable state, a visible panel had `contentTooSmall()` false at the
moment it was shown (ghost field `lastShownContentOk`), and no operation
other than the ones reaching `startShow` can unhide the panel. -/
theorem C9_visible_content_ok (l : Layout) (st : Style) (ops : List Op) :
    ((runOps ops (initState l st)).hidden = false →
      (runOps ops (initState l st)).lastShownContentOk = true)
    ∧ (∀ (op : Op) (s : PanelState), opInvokesStartShow op = false →
        s.hidden = true → (applyOp op s).hidden = true) := by
  constructor
  · intro h
    obtain ⟨h1, h2, h3, h4, h5, h6, h7⟩ := panelInv_reachable l st ops
    exact h5 h
  · intro op s hop hh
    cases op with
    | startShow e => simp [opInvokesStartShow] at hop
    | enterEvent e => simp [opInvokesStartShow] at hop
    | showFromOther e => simp [opInvokesStartShow] at hop
    | ensureCreated e => simpa [applyOp, ensureCreated_hidden] using hh
    | performDestroy => simpa [applyOp, performDestroy_hidden] using hh
    | hideFinished => simp [applyOp, hideFinished_hidden]
    | startHide => simp [applyOp, startHide, hh]
    | startHideChecked =>
        simp only [applyOp, startHideChecked]
        split_ifs <;> simp_all [hideFinished_hidden, startHide]
    | hideIgnoringEnterEvents =>
        simp only [applyOp, hideIgnoringEnterEvents]
        split_ifs <;> simp_all [hideFinished_hidden, startHide]
    | animationFinished =>
        simp only [applyOp, animationFinished]
        split_ifs <;> simp_all [hideFinished_hidden]
    | playlistChanged e =>
        simp only [applyOp, onPlaylistChange]
        split_ifs <;> simp [refreshList_hidden, hh]
    | listHeightUpdated h2 =>
        simp only [applyOp, onListHeightUpdated]
        split_ifs <;> simp [hh]
    | setListPreventAutoHide b => simpa [applyOp] using hh
    | leaveEvent =>
        simp only [applyOp, leaveEventState]
        split_ifs <;> simp [startHide, hh]
    | hideFromOther =>
        simp only [applyOp, hideFromOther]
        split_ifs <;> simp [startHide, hh]

/-- Witness for C9: a full-layout panel shown via `startShow` is visible
with the ghost field set, and `performDestroy` at the hidden widget-owning
state `c2State` keeps the panel hidden. -/
theorem C9_visible_content_ok_witness :
    (runOps [Op.startShow envPeer] (initState Layout.Full styleA)).lastShownContentOk
        = true
      ∧ (applyOp Op.performDestroy c2State).hidden = true :=
  ⟨(C9_visible_content_ok Layout.Full styleA [Op.startShow envPeer]).1 (by decide),
   (C9_visible_content_ok Layout.Full styleA []).2 Op.performDestroy c2State
     (by decide) (by decide)⟩

/-- C10: in every reachable state, the scroll area owns a list widget if and
only if `_listPeer` is non-null — the pair is created together by
`refreshList` and destroyed together by `refreshList` (on peer change) and
`performDestroy`. -/
theorem C10_widget_peer_lifecycle (l : Layout) (st : Style) (ops : List Op) :
    (runOps ops (initState l st)).hasWidget
      = (runOps ops (initState l st)).listPeer.isSome :=
  (panelInv_reachable l st ops).2.2.1
